import Mathlib

/-! Shallow embedding of `src/utensils/timeutils.py`.

Conventions used throughout this development:

* A Python `datetime` is the structure `Datetime`: a wall-clock value counted
  in microseconds since 1970-01-01 00:00:00 (the value of
  `datetime(*time.gmtime(0)[:6])`), plus an optional attached tzinfo.
* A Python `timedelta` is its exact total length in microseconds (an `Int`);
  the normalized `days`/`seconds`/`microseconds` fields are recovered by floor
  division, exactly as CPython stores them.
* CPython floats are modelled as exact rationals.  Every quantity the code
  manipulates is a whole number of microseconds, so the rational model agrees
  with the float code on the statements proved here.
* External collaborators (the pytz zone database, `datetime.strptime` for a
  single format, the process clock, `calendar.monthrange`) are out of scope
  per the specification and enter as an explicit environment `Env`.
* Python exceptions are the type `PyError`; `raise` becomes `Except.error`.
  The spec names error kinds abstractly (InvalidOffset, UnknownTimezone, ...);
  in the code they are concrete exceptions with messages, modelled here by the
  `PyError` constructors and message strings (quote characters are omitted
  from the modelled messages).
-/

namespace Utensils

/-- Python exception values raised by the embedded code. -/
inductive PyError where
  | valueError (msg : String)
  | typeError (msg : String)
  | attributeError (msg : String)
  | unknownTimeZoneError (name : String)
  | zeroDivisionError
  | exceptionRaised
deriving DecidableEq, Repr

/-- Normalized `days` field of a Python timedelta of `t` microseconds
(floor division, as CPython normalizes timedeltas). -/
def tdDays (t : Int) : Int := t / 86400000000

/-- Normalized `seconds` field of a Python timedelta of `t` microseconds. -/
def tdSeconds (t : Int) : Int := (t % 86400000000) / 1000000

/-- Normalized `microseconds` field of a Python timedelta of `t` microseconds. -/
def tdMicroseconds (t : Int) : Int := t % 1000000

/-- Model of `elapsed_seconds` (timeutils.py lines 134-137): the source formula
`(24*60*60) * delta.days + delta.seconds + float(delta.microseconds) / 10**6`,
with the CPython float replaced by an exact rational. -/
def elapsed_seconds (delta : Int) : ℚ :=
  (((24 * 60 * 60) * tdDays delta + tdSeconds delta : Int) : ℚ)
    + (tdMicroseconds delta : ℚ) / 10 ^ 6

/-- Rounding of a rational to an integer, following the CPython
round-half-to-even rule used by the timedelta constructor. -/
def pyRoundHalfEven (q : ℚ) : Int :=
  if q - ⌊q⌋ < 1 / 2 then ⌊q⌋
  else if 1 / 2 < q - ⌊q⌋ then ⌊q⌋ + 1
  else if ⌊q⌋ % 2 = 0 then ⌊q⌋ else ⌊q⌋ + 1

/-- Python `timedelta(seconds=x)` for a float-valued `x`, in microseconds. -/
def tdFromSeconds (q : ℚ) : Int := pyRoundHalfEven (q * 1000000)

/-- Python float modulo: `x % d = x - d * floor(x / d)`, raising
ZeroDivisionError when `d = 0`. -/
def pyMod (x d : ℚ) : Except PyError ℚ :=
  if d = 0 then .error .zeroDivisionError
  else .ok (x - d * ⌊x / d⌋)

/-- Model of one zone of the external pytz Olson database (spec section 6:
out of scope, consumed through a narrow interface).  `localizeOff w` is the
UTC offset in microseconds that `zone.localize` pins onto a naive wall-clock
time `w`; `fromutcOff u` is the offset in effect at the absolute (UTC) instant
`u`, used by `fromutc` / `astimezone` / `normalize`; `rawOff` is the
`_utcoffset` of the unpinned zone object. -/
structure PytzZone where
  name : String
  rawOff : Int
  localizeOff : Int → Int
  fromutcOff : Int → Int

/-- Model of the class `FixedOffsetTZ` (timeutils.py lines 47-81).  Its
constructor assigns exactly the attributes `_zero` and `_utcoffset`
(lines 65-66), recorded here as the two fields, both timedeltas in
microseconds. -/
structure FixedOffsetTZ where
  zeroTd : Int
  utcoffsetTd : Int
deriving DecidableEq, Repr

/-- Constructor `FixedOffsetTZ.__init__` (lines 56-66): raises ValueError when
`minute_offset >= 1440 or minute_offset <= -1440`, otherwise stores
`self._zero = timedelta(0)` and `self._utcoffset = timedelta(minutes=minute_offset)`. -/
def FixedOffsetTZ.init (minute_offset : Int) : Except PyError FixedOffsetTZ :=
  if 1440 ≤ minute_offset ∨ minute_offset ≤ -1440 then
    .error (.valueError "minute offset must be in [-1439, 1439]")
  else
    .ok { zeroTd := 0, utcoffsetTd := minute_offset * 60 * 1000000 }

/-- Instance attribute dictionary as written by `__init__`: exactly `_zero`
and `_utcoffset` are ever assigned on a `FixedOffsetTZ` instance. -/
def FixedOffsetTZ.instanceDict (self : FixedOffsetTZ) : List (String × Int) :=
  [("_zero", self.zeroTd), ("_utcoffset", self.utcoffsetTd)]

/-- A tzinfo value attached to a datetime: either a `FixedOffsetTZ` instance,
or a pytz zone pinned at a definite UTC offset (pytz `localize` and `fromutc`
attach such pinned instances). -/
inductive Tzinfo where
  | fixed (o : FixedOffsetTZ)
  | pytz (z : PytzZone) (off : Int)

/-- Model of a Python datetime: wall-clock microseconds since
1970-01-01 00:00:00, plus the optional attached tzinfo. -/
structure Datetime where
  wall : Int
  tz : Option Tzinfo

/-- The `_utcoffset` of an attached tzinfo; `utcoffset(dt)` is constant in the
datetime argument for both variants (lines 74-75 for `FixedOffsetTZ`). -/
def Tzinfo.utcoffsetUs : Tzinfo → Int
  | .fixed o => o.utcoffsetTd
  | .pytz _ off => off

/-- The `localize` method of an attached tzinfo applied to a naive wall clock
`w`: `FixedOffsetTZ.localize` (line 77-78) is `dt.replace(tzinfo=self)`, and a
pytz zone pins the offset its rules select for the wall time `w`. -/
def Tzinfo.localize (t : Tzinfo) (w : Int) : Datetime :=
  match t with
  | .fixed o => { wall := w, tz := some (.fixed o) }
  | .pytz z _ => { wall := w, tz := some (.pytz z (z.localizeOff w)) }

/-- The `dst` method (lines 68-69): always `self._zero`. -/
def FixedOffsetTZ.dst (self : FixedOffsetTZ) : Int := self.zeroTd

/-- The `utcoffset` method (lines 74-75): always `self._utcoffset`. -/
def FixedOffsetTZ.utcoffset (self : FixedOffsetTZ) (_dt : Datetime) : Int :=
  self.utcoffsetTd

/-- The `tzname` method (lines 71-72) returns `str(self._minute_offset)`: an
attribute lookup in the instance dictionary, which `__init__` populated only
with `_zero` and `_utcoffset` (see `FixedOffsetTZ.instanceDict`), so the
lookup itself decides between the value and an AttributeError. -/
def FixedOffsetTZ.tzname (self : FixedOffsetTZ) (_dt : Datetime) :
    Except PyError String :=
  match self.instanceDict.lookup "_minute_offset" with
  | some v => .ok (toString v)
  | none => .error (.attributeError "FixedOffsetTZ object has no attribute _minute_offset")

/-- Python datetime subtraction `a - b` as a timedelta in microseconds:
wall-clock difference when both are naive, absolute-instant difference when
both are aware, TypeError on a mix. -/
def dtSub (a b : Datetime) : Except PyError Int :=
  match a.tz, b.tz with
  | none, none => .ok (a.wall - b.wall)
  | some ta, some tb =>
      .ok ((a.wall - ta.utcoffsetUs) - (b.wall - tb.utcoffsetUs))
  | _, _ => .error (.typeError "cannot subtract offset-naive and offset-aware datetimes")

/-- Python datetime comparison `a <= b` (naive with naive on wall clocks,
aware with aware on absolute instants, TypeError on a mix). -/
def dtLe (a b : Datetime) : Except PyError Bool :=
  match a.tz, b.tz with
  | none, none => .ok (decide (a.wall ≤ b.wall))
  | some ta, some tb =>
      .ok (decide (a.wall - ta.utcoffsetUs ≤ b.wall - tb.utcoffsetUs))
  | _, _ => .error (.typeError "cannot compare offset-naive and offset-aware datetimes")

/-- Absolute (UTC) instant of a datetime; on a naive value this is just the
wall clock. -/
def dtAbs (d : Datetime) : Int :=
  d.wall - (match d.tz with | some t => t.utcoffsetUs | none => 0)

/-- The external collaborators of the module (spec section 6): the pytz zone
database, `datetime.strptime` (format string, then input; returning the naive
wall clock on success - none of the formats in `DATETIME_FORMATS` carries zone
information, so every result is naive), the process clock `datetime.utcnow()`,
and `calendar.monthrange` (day count of a month, or an error for an illegal
month number). -/
structure Env where
  db : String → Option PytzZone
  strptime : String → String → Option Int
  utcnowWall : Int
  monthrange : Int → Int → Except PyError Int

/-- Model of `pytz.timezone(name)`: database lookup, raising
UnknownTimeZoneError for names absent from the database. -/
def pytz_timezone (env : Env) (name : String) : Except PyError PytzZone :=
  match env.db name with
  | some z => .ok z
  | none => .error (.unknownTimeZoneError name)

/-- Model of pytz `zone.normalize(dt)` (equivalently `dt.astimezone(zone)` for
an aware `dt`): raises ValueError on a naive datetime, otherwise converts to
the absolute instant `u` using the attached `_utcoffset` and re-expresses `u`
in `z`, pinning the offset `z` selects for `u`. -/
def pytzNormalize (z : PytzZone) (dt : Datetime) : Except PyError Datetime :=
  match dt.tz with
  | none => .error (.valueError "Naive time - no tzinfo set")
  | some t =>
      let u := dt.wall - t.utcoffsetUs
      .ok { wall := u + z.fromutcOff u, tz := some (.pytz z (z.fromutcOff u)) }

/-- Model of `dt.astimezone(z)` for a pytz target zone; the naive-input branch
(which would consult the platform timezone) is out of scope and never reached
by the embedded code. -/
def astimezone (dt : Datetime) (z : PytzZone) : Except PyError Datetime :=
  match dt.tz with
  | none => .error (.valueError "astimezone of a naive datetime is not modelled")
  | some t =>
      let u := dt.wall - t.utcoffsetUs
      .ok { wall := u + z.fromutcOff u, tz := some (.pytz z (z.fromutcOff u)) }

/-- Result type of `convert_tzinfo`: a `FixedOffsetTZ` instance or a pytz
zone object. -/
inductive TzObject where
  | fixedTz (o : FixedOffsetTZ)
  | zone (z : PytzZone)

/-- The `localize` method of a resolver result applied to a naive wall clock
(used by `parse` at line 170). -/
def TzObject.localize (t : TzObject) (w : Int) : Datetime :=
  match t with
  | .fixedTz o => { wall := w, tz := some (.fixed o) }
  | .zone z => { wall := w, tz := some (.pytz z (z.localizeOff w)) }

/-- Characters the regex `\s` matches (ASCII model). -/
def isPySpace (c : Char) : Bool :=
  c == ' ' || c.toNat == 9 || c.toNat == 10 || c.toNat == 13 || c.toNat == 11 || c.toNat == 12

/-- Characters the regex `\w` matches (ASCII model). -/
def isWordChar (c : Char) : Bool :=
  c.isAlpha || c.isDigit || c == '_'

/-- Numeric value of a run of ASCII digits. -/
def digitsVal (ds : List Char) : Nat :=
  ds.foldl (fun a c => 10 * a + (c.toNat - 48)) 0

/-- Model of Python `int(s)` on a string: optional surrounding whitespace,
optional sign, then a nonempty run of ASCII digits (underscore digit grouping
is not modelled; no specifier exercised here uses it). -/
def pyInt (s : String) : Option Int :=
  let cs := ((s.toList.dropWhile isPySpace).reverse.dropWhile isPySpace).reverse
  let sgncs : Int × List Char :=
    match cs with
    | '-' :: t => (-1, t)
    | '+' :: t => (1, t)
    | _ => (1, cs)
  if sgncs.2 ≠ [] ∧ sgncs.2.all Char.isDigit = true then
    some (sgncs.1 * (digitsVal sgncs.2 : Int))
  else none

/-- Model of `convert_tzinfo` (lines 83-102).  The first `try` wraps both
`int(tz)` and the `FixedOffsetTZ` constructor, and its `except ValueError`
catches the constructor's out-of-range error as well, falling through to the
pytz lookup; an unknown name there falls through to the final
`raise ValueError("unknown timezone ...")`. -/
def convert_tzinfo (env : Env) (tz : String) : Except PyError TzObject :=
  let fallback : Except PyError TzObject :=
    match env.db tz with
    | some z => .ok (.zone z)
    | none => .error (.valueError ("unknown timezone " ++ tz))
  match pyInt tz with
  | some n =>
      match FixedOffsetTZ.init n with
      | .ok o => .ok (.fixedTz o)
      | .error _ => fallback
  | none => fallback

/-- Model of the module function `localize` (lines 104-113): resolve `tz`
through `pytz.timezone` (raising UnknownTimeZoneError for unresolvable names,
including numeric offset strings), then either a true normalization or a bare
`dt.replace(tzinfo=...)` attaching the unpinned zone object. -/
def localize (env : Env) (dt : Datetime) (normalize : Bool) (tz : String) :
    Except PyError Datetime :=
  match pytz_timezone env tz with
  | .error e => .error e
  | .ok tzinfo =>
      if normalize then pytzNormalize tzinfo dt
      else .ok { wall := dt.wall, tz := some (.pytz tzinfo tzinfo.rawOff) }

/-- Model of `local_now` (lines 115-119): localize `datetime.utcnow()` into
UTC and convert it into America/New_York. -/
def local_now (env : Env) : Except PyError Datetime :=
  match pytz_timezone env "UTC" with
  | .error e => .error e
  | .ok utc =>
      let now : Datetime :=
        { wall := env.utcnowWall, tz := some (.pytz utc (utc.localizeOff env.utcnowWall)) }
      match pytz_timezone env "America/New_York" with
      | .error e => .error e
      | .ok ny => astimezone now ny

/-- Model of `days_in_prev_month` (lines 144-145): a calendar lookup for month
`ts.month - 1` of the same year (for a January timestamp this passes month 0
to `calendar.monthrange`, an IllegalMonthError in the external library).
Unreachable from `parse_timedelta`, whose months branch dies one expression
earlier; see `resolveGroup`. -/
def days_in_prev_month (env : Env) (year month : Int) : Except PyError Int :=
  env.monthrange year (month - 1)

/-- The constant table `TIMEDELTA_ABBREVS` (lines 32-41). -/
def TIMEDELTA_ABBREVS : List (String × List String) :=
  [("hours", ["h"]), ("minutes", ["m", "min"]), ("seconds", ["s", "sec"]),
   ("milliseconds", ["ms"]), ("microseconds", ["us"]), ("days", ["d"]),
   ("weeks", ["w"]), ("months", ["M"])]

/-- The derived dictionary `TIMEDELTA_ABBREV_DICT` (lines 43-45), as an
association list (the comprehension produces no duplicate keys). -/
def TIMEDELTA_ABBREV_DICT : List (String × String) :=
  TIMEDELTA_ABBREVS.flatMap (fun p => p.2.map (fun a => (a, p.1)))

/-- The constant format list `DATETIME_FORMATS` (lines 14-25). -/
def DATETIME_FORMATS : List String :=
  ["%a %b %d %H:%M:%S %Y", "%Y-%m-%d %H:%M:%S", "%Y-%m-%d %H:%M",
   "%Y-%m-%dT%H:%M", "%Y%m%d %H:%M:%S", "%Y%m%d %H:%M", "%Y-%m-%d",
   "%Y%m%d", "%H:%M:%S", "%H:%M"]

/-- Greedy match of the optional exponent part `(?:[eE][-+]?\d+)?` of
FLOAT_PATTERN: included only when a full exponent is present, otherwise the
regex backtracks to the mantissa alone.  Returns the accumulated match and the
remaining suffix. -/
def matchExpPart (acc cs : List Char) : List Char × List Char :=
  match cs with
  | e :: rest =>
      if e == 'e' || e == 'E' then
        let sgncs : List Char × List Char :=
          match rest with
          | c :: t => if c == '+' || c == '-' then ([c], t) else ([], rest)
          | [] => ([], [])
        let ds := sgncs.2.takeWhile Char.isDigit
        if ds = [] then (acc, cs)
        else (acc ++ e :: (sgncs.1 ++ ds), sgncs.2.dropWhile Char.isDigit)
      else (acc, cs)
  | [] => (acc, cs)

/-- Greedy match of the mantissa alternation `\d+(?:\.\d*)?|\.\d+` of
FLOAT_PATTERN followed by the optional exponent, on the input after the
optional sign `sg`: either nonempty digits with an optional fraction, or a
bare fraction with nonempty digits. -/
def matchMantissa (sg cs1 : List Char) : Option (List Char × List Char) :=
  let ds := cs1.takeWhile Char.isDigit
  let cs2 := cs1.dropWhile Char.isDigit
  if ds = [] then
    match cs2 with
    | '.' :: cs3 =>
        let fs := cs3.takeWhile Char.isDigit
        if fs = [] then none
        else some (matchExpPart (sg ++ '.' :: fs) (cs3.dropWhile Char.isDigit))
    | _ => none
  else
    match cs2 with
    | '.' :: cs3 =>
        let fs := cs3.takeWhile Char.isDigit
        some (matchExpPart (sg ++ (ds ++ '.' :: fs)) (cs3.dropWhile Char.isDigit))
    | _ => some (matchExpPart (sg ++ ds) cs2)

/-- Greedy match of FLOAT_PATTERN (line 27),
`[-+]?(?:\d+(?:\.\d*)?|\.\d+)(?:[eE][-+]?\d+)?`, at the head of `cs`:
optional sign, then the mantissa and optional exponent.  Returns the matched
characters (regex group 1) and the remaining suffix, or `none` when no float
starts here. -/
def matchFloat (cs : List Char) : Option (List Char × List Char) :=
  match cs with
  | c :: t => if c == '+' || c == '-' then matchMantissa [c] t else matchMantissa [] cs
  | [] => matchMantissa [] []

/-- One match of TIMEDELTA_PATTERN (lines 29-30), `\s*(FLOAT)\s*(\w*)\s*`, at
the head of `cs`: `num` is group 1, `unit` is group 2, `rest` is the suffix
after `m.end()`. -/
structure TdMatch where
  num : List Char
  unit : List Char
  rest : List Char
deriving DecidableEq, Repr

/-- Matcher for TIMEDELTA_PATTERN at the head of `cs` (behaviour of
`TIMEDELTA_PATTERN.match(value, start)` on the suffix of `value` from
`start`). -/
def timedeltaMatch (cs : List Char) : Option TdMatch :=
  let cs1 := cs.dropWhile isPySpace
  match matchFloat cs1 with
  | none => none
  | some nr =>
      let cs3 := nr.2.dropWhile isPySpace
      some { num := nr.1, unit := cs3.takeWhile isWordChar,
             rest := (cs3.dropWhile isWordChar).dropWhile isPySpace }

/-- Exact value of Python `float` applied to a string matched by
FLOAT_PATTERN (the CPython double rounding is not modelled; every literal
exercised in this development is exactly representable). -/
def pyFloat (cs : List Char) : ℚ :=
  let sgncs : ℚ × List Char :=
    match cs with
    | '-' :: t => (-1, t)
    | '+' :: t => (1, t)
    | _ => (1, cs)
  let ip := sgncs.2.takeWhile Char.isDigit
  let cs2 := sgncs.2.dropWhile Char.isDigit
  let fpcs : List Char × List Char :=
    match cs2 with
    | '.' :: t => (t.takeWhile Char.isDigit, t.dropWhile Char.isDigit)
    | _ => ([], cs2)
  let ex : Int :=
    match fpcs.2 with
    | e :: t =>
        if e == 'e' || e == 'E' then
          match t with
          | '-' :: t2 => -(digitsVal (t2.takeWhile Char.isDigit) : Int)
          | '+' :: t2 => (digitsVal (t2.takeWhile Char.isDigit) : Int)
          | _ => (digitsVal (t.takeWhile Char.isDigit) : Int)
        else 0
    | [] => 0
  sgncs.1 * ((digitsVal ip : ℚ) + (digitsVal fpcs.1 : ℚ) / (10 : ℚ) ^ fpcs.1.length)
    * (10 : ℚ) ^ ex

/-- Python `timedelta(**{units: num})` in microseconds; an unrecognized unit
name raises TypeError (unexpected keyword argument). -/
def timedeltaKeyword (units : String) (num : ℚ) : Except PyError Int :=
  if units = "hours" then .ok (pyRoundHalfEven (num * 3600000000))
  else if units = "minutes" then .ok (pyRoundHalfEven (num * 60000000))
  else if units = "seconds" then .ok (pyRoundHalfEven (num * 1000000))
  else if units = "milliseconds" then .ok (pyRoundHalfEven (num * 1000))
  else if units = "microseconds" then .ok (pyRoundHalfEven num)
  else if units = "days" then .ok (pyRoundHalfEven (num * 86400000000))
  else if units = "weeks" then .ok (pyRoundHalfEven (num * 604800000000))
  else .error (.typeError (units ++ " is an invalid keyword argument for timedelta"))

/-- Resolution of one matched group (lines 199-206): parse the float, default
an empty unit to seconds, translate through TIMEDELTA_ABBREV_DICT with the raw
token as fallback, then either the months branch - whose very first step
`datetime.dateime.now()` (line 203) is a misspelled attribute access raising
AttributeError before any calendar lookup happens - or the timedelta keyword
constructor. -/
def resolveGroup (m : TdMatch) : Except PyError Int :=
  let num := pyFloat m.num
  let units0 := if m.unit = [] then "seconds" else String.mk m.unit
  let units := ((TIMEDELTA_ABBREV_DICT.lookup units0).getD units0)
  if units = "months" then
    .error (.attributeError "type object datetime has no attribute dateime")
  else timedeltaKeyword units num

/-- Scanning loop of `parse_timedelta` (lines 193-207), fuel-indexed.  Each
successful match consumes at least one character (`timedeltaMatch_rest_lt`),
and the initial call passes the string length as fuel, so the zero-fuel branch
is unreachable.  A position where TIMEDELTA_PATTERN fails to match raises the
bare `Exception()` of line 198 (re-raised unchanged by the
`except: raise` at lines 209-210). -/
def parseTdGo : Nat → List Char → Int → Except PyError Int
  | _, [], acc => .ok acc
  | 0, _ :: _, _ => .error .exceptionRaised
  | fuel + 1, c :: cs, acc =>
      match timedeltaMatch (c :: cs) with
      | none => .error .exceptionRaised
      | some m =>
          match resolveGroup m with
          | .error e => .error e
          | .ok inc => parseTdGo fuel m.rest (acc + inc)

/-- Model of `parse_timedelta` (lines 191-210).  The environment is not
needed: the only environment-dependent expression in the source, the months
branch, raises before reaching the clock or the calendar. -/
def parse_timedelta (value : String) : Except PyError Int :=
  parseTdGo value.toList.length value.toList 0

/-- Model of `parse_datetime` (lines 212-219): try `datetime.strptime` for
each format in order (each attempt's exceptions swallowed), first success
wins, otherwise ValueError. -/
def parse_datetime (env : Env) (date_str : String) : Except PyError Int :=
  match DATETIME_FORMATS.findSome? (fun f => env.strptime f date_str) with
  | some val => .ok val
  | none => .error (.valueError ("Unrecognized date/time format: " ++ date_str))

/-- Model of `_as_datetime` (lines 178-182): swallow the ValueError of
`parse_datetime` into `None`.  A success is a naive datetime. -/
def as_datetime (env : Env) (t : String) : Option Datetime :=
  match parse_datetime env t with
  | .ok w => some { wall := w, tz := none }
  | .error _ => none

/-- Model of `_as_timedelta` (lines 184-189): parse a relative duration and
subtract it from `now or local_now()`; every exception (including a failing
`local_now`) becomes `None`. -/
def as_timedelta (env : Env) (t : String) (now : Option Datetime) :
    Option Datetime :=
  match parse_timedelta t with
  | .error _ => none
  | .ok td =>
      match now with
      | some n => some { wall := n.wall - td, tz := n.tz }
      | none =>
          match local_now env with
          | .ok n => some { wall := n.wall - td, tz := n.tz }
          | .error _ => none

/-- Timezone finalization stage of `parse` (lines 164-174): resolve `tz` via
`convert_tzinfo`; for an aware datetime evaluate
`localize(dt, tz=tz, normalize=True)` and DISCARD its value (the source does
not rebind `dt`, so only the exceptions of that call propagate); for a naive
datetime attach the resolver's zone.  UnknownTimeZoneError from the block is
converted to ValueError (lines 171-172).  Finally (line 174, outside the
`try`) re-normalize into the fixed canonical zone America/New_York. -/
def tz_finalize (env : Env) (dt0 : Datetime) (tz : String) :
    Except PyError Datetime :=
  let step : Except PyError Datetime :=
    match convert_tzinfo env tz with
    | .error e => .error e
    | .ok tzobj =>
        match dt0.tz with
        | some _ =>
            match localize env dt0 true tz with
            | .error e => .error e
            | .ok _ => .ok dt0
        | none => .ok (tzobj.localize dt0.wall)
  match step with
  | .error (.unknownTimeZoneError _) =>
      .error (.valueError ("unknown timezone " ++ tz))
  | .error e => .error e
  | .ok dt1 =>
      match pytz_timezone env "America/New_York" with
      | .error e => .error e
      | .ok zNY => pytzNormalize zNY dt1

/-- Argument and return type of `parse`: `time_str` may be a string, a
datetime, or None; falsy or datetime inputs are returned unchanged. -/
inductive PyTimeVal where
  | str (s : String)
  | dt (d : Datetime)
  | noneVal

/-- Model of `parse` (lines 147-176).  The `tz` parameter is a string; the
empty string models every falsy `tz` (the source guards with `if tz:`). -/
def parse (env : Env) (time_str : PyTimeVal) (tz : String)
    (now : Option Datetime) : Except PyError PyTimeVal :=
  match time_str with
  | .noneVal => .ok .noneVal
  | .dt d => .ok (.dt d)
  | .str s =>
      if s = "" then .ok (.str s)
      else
        let dtOpt : Option Datetime :=
          match as_datetime env s with
          | some d => some d
          | none => as_timedelta env s now
        match dtOpt with
        | none => .error (.valueError ("unable to convert " ++ s ++ " to datetime"))
        | some dt0 =>
            if tz = "" then .ok (.dt dt0)
            else
              match tz_finalize env dt0 tz with
              | .error e => .error e
              | .ok d => .ok (.dt d)

/-- The epoch of `align` (line 228), `datetime(*time.gmtime(0)[:6])`:
1970-01-01 00:00:00 naive, localized into `ts`'s tzinfo when `ts` is aware
(lines 229-230). -/
def align_epoch (ts : Datetime) : Datetime :=
  match ts.tz with
  | some t => t.localize 0
  | none => { wall := 0, tz := none }

/-- Model of `align` (lines 221-233): elapsed seconds from the epoch, float
modulo by the frequency's elapsed seconds, and subtraction of the remainder
as a `timedelta(seconds=offset)`. -/
def align (frequency : Int) (ts : Datetime) : Except PyError Datetime :=
  match dtSub ts (align_epoch ts) with
  | .error e => .error e
  | .ok delta =>
      match pyMod (elapsed_seconds delta) (elapsed_seconds frequency) with
      | .error e => .error e
      | .ok offset => .ok { wall := ts.wall - tdFromSeconds offset, tz := ts.tz }

/-- Concrete America/New_York database entry used by witnesses: a constant
EST offset of -5 hours.  The real zone's DST rules live in the external
database; no theorem depends on them. -/
def nyZone : PytzZone :=
  { name := "America/New_York", rawOff := -17762000000,
    localizeOff := fun _ => -18000000000, fromutcOff := fun _ => -18000000000 }

/-- Concrete UTC database entry used by witnesses. -/
def utcZone : PytzZone :=
  { name := "UTC", rawOff := 0, localizeOff := fun _ => 0, fromutcOff := fun _ => 0 }

/-- Concrete environment used by witnesses: a two-zone database, a strptime
that matches nothing (the inputs exercised are all relative expressions), a
fixed clock, and a 30-day calendar answer. -/
def sampleEnv : Env :=
  { db := fun s =>
      if s = "America/New_York" then some nyZone
      else if s = "UTC" then some utcZone
      else none,
    strptime := fun _ _ => none,
    utcnowWall := 1696000000000000,
    monthrange := fun _ _ => .ok 30 }

/-- Reachability of a scan position: `TdScanReaches cs tgt` holds when the
`parse_timedelta` loop, started on `cs`, arrives at the suffix `tgt` through
zero or more successfully matched and resolved groups. -/
inductive TdScanReaches : List Char → List Char → Prop where
  | refl (cs : List Char) : TdScanReaches cs cs
  | step {cs tgt : List Char} (m : TdMatch) (inc : Int)
      (hm : timedeltaMatch cs = some m) (hr : resolveGroup m = .ok inc)
      (htl : TdScanReaches m.rest tgt) : TdScanReaches cs tgt

theorem dropWhile_length_le {α : Type} (p : α → Bool) (l : List α) :
    (l.dropWhile p).length ≤ l.length := by
  induction l with
  | nil => simp
  | cons a t ih =>
      by_cases h : p a
      · simp only [List.dropWhile, h]
        exact Nat.le_succ_of_le ih
      · simp [List.dropWhile, h]

theorem dropWhile_length_lt {α : Type} (p : α → Bool) (l : List α)
    (h : l.takeWhile p ≠ []) : (l.dropWhile p).length < l.length := by
  have hsplit : (l.takeWhile p).length + (l.dropWhile p).length = l.length := by
    rw [← List.length_append, List.takeWhile_append_dropWhile]
  have hpos : 0 < (l.takeWhile p).length := List.length_pos.mpr h
  omega

theorem dropWhile_eq_self_of_takeWhile_nil {α : Type} (p : α → Bool)
    (l : List α) (h : l.takeWhile p = []) : l.dropWhile p = l := by
  conv_rhs => rw [← List.takeWhile_append_dropWhile (p := p) (l := l)]
  rw [h, List.nil_append]

theorem matchExpPart_snd_le (acc cs : List Char) :
    (matchExpPart acc cs).2.length ≤ cs.length := by
  unfold matchExpPart
  cases cs with
  | nil => simp
  | cons e rest =>
      dsimp only
      split
      · cases rest with
        | nil =>
            dsimp only
            split
            · simp
            · simp
        | cons c t =>
            dsimp only
            split
            · dsimp only
              split
              · simp
              · simp only [List.length_cons]
                have := dropWhile_length_le Char.isDigit t
                omega
            · dsimp only
              split
              · simp
              · simp only [List.length_cons]
                have := dropWhile_length_le Char.isDigit (c :: t)
                simp only [List.length_cons] at this
                omega
      · simp

theorem matchMantissa_snd_lt (sg cs1 : List Char) (nr : List Char × List Char)
    (h : matchMantissa sg cs1 = some nr) : nr.2.length < cs1.length := by
  simp only [matchMantissa] at h
  split at h
  · rename_i hds
    have hself : cs1.dropWhile Char.isDigit = cs1 :=
      dropWhile_eq_self_of_takeWhile_nil _ _ hds
    split at h
    · rename_i cs3 heq
      split at h
      · exact absurd h (by simp)
      · injection h with h
        subst h
        have h1 := matchExpPart_snd_le (sg ++ '.' :: cs3.takeWhile Char.isDigit)
          (cs3.dropWhile Char.isDigit)
        have h2 := dropWhile_length_le Char.isDigit cs3
        have h3 : cs1.length = cs3.length + 1 := by
          rw [hself] at heq
          rw [heq]
          rfl
        omega
    · exact absurd h (by simp)
  · rename_i hds
    have hlt : (cs1.dropWhile Char.isDigit).length < cs1.length :=
      dropWhile_length_lt _ _ hds
    split at h
    · rename_i cs3 heq
      injection h with h
      subst h
      have h1 := matchExpPart_snd_le
        (sg ++ (cs1.takeWhile Char.isDigit ++ '.' :: cs3.takeWhile Char.isDigit))
        (cs3.dropWhile Char.isDigit)
      have h2 := dropWhile_length_le Char.isDigit cs3
      have h3 : (cs1.dropWhile Char.isDigit).length = cs3.length + 1 := by
        rw [heq]
        rfl
      omega
    · injection h with h
      subst h
      have h1 := matchExpPart_snd_le (sg ++ cs1.takeWhile Char.isDigit)
        (cs1.dropWhile Char.isDigit)
      omega

theorem matchFloat_snd_lt (cs : List Char) (nr : List Char × List Char)
    (h : matchFloat cs = some nr) : nr.2.length < cs.length := by
  cases cs with
  | nil =>
      simp only [matchFloat] at h
      have := matchMantissa_snd_lt _ _ _ h
      simp at this
  | cons c t =>
      simp only [matchFloat] at h
      split at h
      · have := matchMantissa_snd_lt _ _ _ h
        simp only [List.length_cons]
        omega
      · exact matchMantissa_snd_lt _ _ _ h

theorem timedeltaMatch_rest_lt (cs : List Char) (m : TdMatch)
    (h : timedeltaMatch cs = some m) : m.rest.length < cs.length := by
  simp only [timedeltaMatch] at h
  split at h
  · exact absurd h (by simp)
  · rename_i nr hnr
    injection h with h
    subst h
    dsimp only
    have h1 := matchFloat_snd_lt _ _ hnr
    have h2 := dropWhile_length_le isPySpace cs
    have h3 := dropWhile_length_le isPySpace nr.2
    have h4 := dropWhile_length_le isWordChar (nr.2.dropWhile isPySpace)
    have h5 := dropWhile_length_le isPySpace
      ((nr.2.dropWhile isPySpace).dropWhile isWordChar)
    omega

theorem timedeltaMatch_nil : timedeltaMatch ([] : List Char) = none := rfl

theorem parseTdGo_error_of_reach :
    ∀ (cs tgt : List Char), TdScanReaches cs tgt → tgt ≠ [] →
      timedeltaMatch tgt = none →
      ∀ (fuel : Nat) (acc : Int), cs.length ≤ fuel →
        parseTdGo fuel cs acc = .error .exceptionRaised := by
  intro cs tgt hreach
  induction hreach with
  | refl cs0 =>
      intro hne hfail fuel acc hfuel
      cases cs0 with
      | nil => exact absurd rfl hne
      | cons c t =>
          cases fuel with
          | zero => simp at hfuel
          | succ k =>
              simp only [parseTdGo, hfail]
  | step m inc hm hr htl ih =>
      intro hne hfail fuel acc hfuel
      rename_i cs0 _
      cases cs0 with
      | nil => rw [timedeltaMatch_nil] at hm; exact absurd hm (by simp)
      | cons c t =>
          cases fuel with
          | zero => simp at hfuel
          | succ k =>
              have hlt := timedeltaMatch_rest_lt _ _ hm
              simp only [parseTdGo, hm, hr]
              exact ih hne hfail k (acc + inc)
                (by simp only [List.length_cons] at hlt hfuel; omega)

theorem elapsed_eq (t : Int) : elapsed_seconds t = (t : ℚ) / 1000000 := by
  have key : (24 * 60 * 60) * tdDays t * 1000000 + tdSeconds t * 1000000
      + tdMicroseconds t = t := by
    unfold tdDays tdSeconds tdMicroseconds
    have h2 : t % 86400000000 % 1000000 = t % 1000000 :=
      Int.emod_emod_of_dvd t (by norm_num)
    have e1 := Int.ediv_add_emod t 86400000000
    have e2 := Int.ediv_add_emod (t % 86400000000) 1000000
    rw [← h2]
    linarith
  have keyQ : ((24 * 60 * 60 : ℚ)) * (tdDays t : ℚ) * 1000000
      + (tdSeconds t : ℚ) * 1000000 + (tdMicroseconds t : ℚ) = (t : ℚ) := by
    exact_mod_cast congrArg (fun z : Int => (z : ℚ)) key
  rw [elapsed_seconds]
  push_cast
  field_simp
  linarith

theorem pyRoundHalfEven_intCast (n : Int) : pyRoundHalfEven ((n : ℚ)) = n := by
  unfold pyRoundHalfEven
  rw [Int.floor_intCast, sub_self, if_pos (by norm_num)]

theorem pyRoundHalfEven_nonpos (q : ℚ) (h : q ≤ 0) : pyRoundHalfEven q ≤ 0 := by
  have hf : ⌊q⌋ ≤ 0 := by
    have := Int.floor_le_floor (α := ℚ) h
    simpa using this
  unfold pyRoundHalfEven
  split_ifs with h1 h2 h3
  · exact hf
  · rcases lt_or_eq_of_le hf with hlt | heq
    · omega
    · exfalso
      rw [heq] at h2
      push_cast at h2
      linarith
  · exact hf
  · rcases lt_or_eq_of_le hf with hlt | heq
    · omega
    · exfalso
      rw [heq] at h1
      push_cast at h1
      linarith

theorem tdFromSeconds_int_div (n : Int) :
    tdFromSeconds ((n : ℚ) / 1000000) = n := by
  unfold tdFromSeconds
  rw [div_mul_cancel₀ _ (by norm_num : (1000000 : ℚ) ≠ 0), pyRoundHalfEven_intCast]

theorem tdFromSeconds_intCast (n : Int) :
    tdFromSeconds ((n : ℚ)) = n * 1000000 := by
  unfold tdFromSeconds
  rw [show ((n : ℚ) * 1000000) = (((n * 1000000 : Int) : ℚ)) from by
    push_cast
    ring]
  rw [pyRoundHalfEven_intCast]

theorem floor_int_div (D f : Int) (hf : 0 < f) :
    ⌊(D : ℚ) / (f : ℚ)⌋ = D / f := by
  have hfne : (f : ℚ) ≠ 0 := by exact_mod_cast hf.ne'
  have e1 := Int.ediv_add_emod D f
  have hr0 : 0 ≤ D % f := Int.emod_nonneg D hf.ne'
  have hrf : D % f < f := Int.emod_lt_of_pos D hf
  have e1Q : (f : ℚ) * ((D / f : Int) : ℚ) + ((D % f : Int) : ℚ) = (D : ℚ) := by
    exact_mod_cast congrArg (fun z : Int => (z : ℚ)) e1
  have hsplit : (D : ℚ) / f = ((D / f : Int) : ℚ) + ((D % f : Int) : ℚ) / f := by
    field_simp
    linear_combination -e1Q
  rw [hsplit, Int.floor_int_add]
  have hzero : ⌊((D % f : Int) : ℚ) / f⌋ = 0 := by
    apply Int.floor_eq_zero_iff.mpr
    constructor
    · positivity
    · rw [div_lt_one (by exact_mod_cast hf)]
      exact_mod_cast hrf
  rw [hzero, add_zero]

theorem pyMod_elapsed_pos (D f : Int) (hf : 0 < f) :
    pyMod (elapsed_seconds D) (elapsed_seconds f)
      = .ok (((D % f : Int) : ℚ) / 1000000) := by
  have hfQ : (0 : ℚ) < (f : ℚ) := by exact_mod_cast hf
  rw [elapsed_eq, elapsed_eq, pyMod, if_neg (by positivity)]
  have hq : ((D : ℚ) / 1000000) / ((f : ℚ) / 1000000) = (D : ℚ) / (f : ℚ) :=
    div_div_div_cancel_right₀ (by norm_num) _ _
  rw [hq, floor_int_div D f hf]
  have e1 := congrArg (fun z : Int => (z : ℚ)) (Int.ediv_add_emod D f)
  push_cast at e1
  congr 1
  field_simp
  linarith

theorem dtSub_align_epoch (ts : Datetime) :
    ∃ D : Int, dtSub ts (align_epoch ts) = .ok D ∧
      ∀ c : Int,
        dtSub { wall := ts.wall - c, tz := ts.tz }
          (align_epoch { wall := ts.wall - c, tz := ts.tz }) = .ok (D - c) := by
  rcases ts with ⟨w, tz⟩
  cases tz with
  | none =>
      refine ⟨w, ?_, fun c => ?_⟩
      · simp only [dtSub, align_epoch, Except.ok.injEq]
        omega
      · simp only [dtSub, align_epoch, Except.ok.injEq]
        omega
  | some t =>
      cases t with
      | fixed o =>
          refine ⟨w, ?_, fun c => ?_⟩
          · simp only [dtSub, align_epoch, Tzinfo.localize, Tzinfo.utcoffsetUs,
              Except.ok.injEq]
            omega
          · simp only [dtSub, align_epoch, Tzinfo.localize, Tzinfo.utcoffsetUs,
              Except.ok.injEq]
            omega
      | pytz z p =>
          refine ⟨w - p + z.localizeOff 0, ?_, fun c => ?_⟩
          · simp only [dtSub, align_epoch, Tzinfo.localize, Tzinfo.utcoffsetUs,
              Except.ok.injEq]
            omega
          · simp only [dtSub, align_epoch, Tzinfo.localize, Tzinfo.utcoffsetUs,
              Except.ok.injEq]
            omega

theorem align_spec_pos (f : Int) (ts : Datetime) (hf : 0 < f) :
    ∃ D : Int, dtSub ts (align_epoch ts) = .ok D ∧
      align f ts = .ok { wall := ts.wall - D % f, tz := ts.tz } := by
  obtain ⟨D, hD, -⟩ := dtSub_align_epoch ts
  refine ⟨D, hD, ?_⟩
  unfold align
  rw [hD]
  dsimp only
  rw [pyMod_elapsed_pos D f hf]
  dsimp only
  rw [tdFromSeconds_int_div]

theorem pyFloat_2 : pyFloat ['2'] = 2 := by
  have h : pyFloat ['2']
      = 1 * (((2 : ℕ) : ℚ) + ((0 : ℕ) : ℚ) / 10 ^ (0 : ℕ)) * (10 : ℚ) ^ (0 : ℤ) := rfl
  rw [h]
  norm_num

theorem pyFloat_5 : pyFloat ['5'] = 5 := by
  have h : pyFloat ['5']
      = 1 * (((5 : ℕ) : ℚ) + ((0 : ℕ) : ℚ) / 10 ^ (0 : ℕ)) * (10 : ℚ) ^ (0 : ℤ) := rfl
  rw [h]
  norm_num

theorem resolveGroup_2h :
    resolveGroup { num := ['2'], unit := ['h'], rest := [] } = .ok 7200000000 := by
  have h1 : resolveGroup { num := ['2'], unit := ['h'], rest := [] }
      = .ok (pyRoundHalfEven (pyFloat ['2'] * 3600000000)) := rfl
  rw [h1, pyFloat_2]
  rw [show ((2 : ℚ) * 3600000000) = ((7200000000 : ℤ) : ℚ) from by norm_num]
  rw [pyRoundHalfEven_intCast]

theorem resolveGroup_5m :
    resolveGroup { num := ['5'], unit := ['m'], rest := "abc".toList }
      = .ok 300000000 := by
  have h1 : resolveGroup { num := ['5'], unit := ['m'], rest := "abc".toList }
      = .ok (pyRoundHalfEven (pyFloat ['5'] * 60000000)) := rfl
  rw [h1, pyFloat_5]
  rw [show ((5 : ℚ) * 60000000) = ((300000000 : ℤ) : ℚ) from by norm_num]
  rw [pyRoundHalfEven_intCast]

theorem parse_timedelta_2h : parse_timedelta "2h" = .ok 7200000000 := by
  have h0 : parse_timedelta "2h" = parseTdGo 2 ['2', 'h'] 0 := rfl
  rw [h0]
  rw [show parseTdGo 2 ['2', 'h'] 0
      = (match resolveGroup { num := ['2'], unit := ['h'], rest := [] } with
         | .error e => .error e
         | .ok inc => parseTdGo 1 [] (0 + inc)) from rfl]
  rw [resolveGroup_2h]
  dsimp only
  rw [show parseTdGo 1 ([] : List Char) (0 + 7200000000) = .ok (0 + 7200000000) from rfl]
  norm_num

/-- C5: for every instant `ts` and every frequency with positive elapsed
seconds, `align` succeeds with a result that is less than or equal to `ts`
(same awareness, compared as Python does) and `align` is idempotent on its own
result. -/
theorem align_le_and_idempotent (f : Int) (ts : Datetime)
    (hf : 0 < elapsed_seconds f) :
    ∃ r, align f ts = .ok r ∧ dtLe r ts = .ok true ∧ align f r = .ok r := by
  have hf' : 0 < f := by
    rw [elapsed_eq] at hf
    by_contra hle
    push_neg at hle
    have h1 : (f : ℚ) ≤ 0 := by exact_mod_cast hle
    have h2 : (f : ℚ) / 1000000 ≤ 0 :=
      div_nonpos_of_nonpos_of_nonneg h1 (by norm_num)
    linarith
  rcases ts with ⟨w, tz⟩
  obtain ⟨D, hD, halign⟩ := align_spec_pos f { wall := w, tz := tz } hf'
  have h0 : 0 ≤ D % f := Int.emod_nonneg D hf'.ne'
  refine ⟨{ wall := w - D % f, tz := tz }, halign, ?_, ?_⟩
  · cases tz with
    | none =>
        simp only [dtLe, decide_eq_true_eq, Except.ok.injEq]
        omega
    | some t =>
        simp only [dtLe, decide_eq_true_eq, Except.ok.injEq]
        omega
  · obtain ⟨D0, hD0, hshift⟩ := dtSub_align_epoch { wall := w, tz := tz }
    have hD0D : D0 = D := by
      rw [hD0] at hD
      injection hD
    obtain ⟨D', hD', halign'⟩ :=
      align_spec_pos f { wall := w - D % f, tz := tz } hf'
    have hshift' := hshift (D % f)
    have hD'val : D' = D - D % f := by
      have hcomb := hD'.symm.trans hshift'
      injection hcomb with hcomb
      omega
    have hmod0 : D' % f = 0 := by
      have he := Int.ediv_add_emod D f
      have hfd : D - D % f = f * (D / f) := by omega
      rw [hD'val, hfd, Int.mul_emod_right]
    rw [hmod0, sub_zero] at halign'
    exact halign'

/-- C5 witness: the general theorem applied to the one-hour frequency and a
concrete naive instant. -/
theorem align_le_and_idempotent_witness :
    0 < elapsed_seconds 3600000000 ∧
    ∃ r, align 3600000000 { wall := 5000000000, tz := none } = .ok r ∧
      dtLe r { wall := 5000000000, tz := none } = .ok true ∧
      align 3600000000 r = .ok r :=
  ⟨by norm_num [elapsed_seconds, tdDays, tdSeconds, tdMicroseconds],
    align_le_and_idempotent 3600000000 { wall := 5000000000, tz := none }
      (by norm_num [elapsed_seconds, tdDays, tdSeconds, tdMicroseconds])⟩

/-- C6 (amended): when the frequency's elapsed seconds is zero, `align` fails,
but with the ZeroDivisionError of the modulo operation, and when it is
strictly negative `align` does not fail at all: it returns an instant at or
after `ts` (the code contains no frequency validation). -/
theorem align_nonpositive_frequency (f : Int) (ts : Datetime) :
    (elapsed_seconds f = 0 → align f ts = .error .zeroDivisionError) ∧
    (elapsed_seconds f < 0 →
      ∃ r, align f ts = .ok r ∧ r.tz = ts.tz ∧ ts.wall ≤ r.wall) := by
  obtain ⟨D, hD, -⟩ := dtSub_align_epoch ts
  constructor
  · intro h0
    unfold align
    rw [hD]
    dsimp only
    rw [pyMod, if_pos h0]
  · intro hneg
    have hne : elapsed_seconds f ≠ 0 := ne_of_lt hneg
    unfold align
    rw [hD]
    dsimp only
    rw [pyMod, if_neg hne]
    dsimp only
    refine ⟨_, rfl, rfl, ?_⟩
    have hoff : elapsed_seconds D
        - elapsed_seconds f * ⌊elapsed_seconds D / elapsed_seconds f⌋ ≤ 0 := by
      have h1 : ((⌊elapsed_seconds D / elapsed_seconds f⌋ : Int) : ℚ)
          ≤ elapsed_seconds D / elapsed_seconds f := Int.floor_le _
      have h2 : elapsed_seconds f * (elapsed_seconds D / elapsed_seconds f)
          ≤ elapsed_seconds f * ⌊elapsed_seconds D / elapsed_seconds f⌋ :=
        mul_le_mul_of_nonpos_left h1 (le_of_lt hneg)
      have h3 : elapsed_seconds f * (elapsed_seconds D / elapsed_seconds f)
          = elapsed_seconds D := by
        rw [mul_comm]
        exact div_mul_cancel₀ _ hne
      linarith
    have hrnd : tdFromSeconds (elapsed_seconds D
        - elapsed_seconds f * ⌊elapsed_seconds D / elapsed_seconds f⌋) ≤ 0 := by
      apply pyRoundHalfEven_nonpos
      nlinarith
    show ts.wall ≤ ts.wall - tdFromSeconds (elapsed_seconds D
      - elapsed_seconds f * ⌊elapsed_seconds D / elapsed_seconds f⌋)
    omega

/-- C6 witness: both conjuncts of the amended theorem at concrete inputs. -/
theorem align_nonpositive_frequency_witness :
    (elapsed_seconds 0 = 0 ∧
      align 0 { wall := 5000000000, tz := none } = .error .zeroDivisionError) ∧
    (elapsed_seconds (-3600000000) < 0 ∧
      ∃ r, align (-3600000000) { wall := 5000000000, tz := none } = .ok r ∧
        r.tz = none ∧ (5000000000 : Int) ≤ r.wall) := by
  constructor
  · exact ⟨by norm_num [elapsed_seconds, tdDays, tdSeconds, tdMicroseconds],
      (align_nonpositive_frequency 0 { wall := 5000000000, tz := none }).1
        (by norm_num [elapsed_seconds, tdDays, tdSeconds, tdMicroseconds])⟩
  · exact ⟨by norm_num [elapsed_seconds, tdDays, tdSeconds, tdMicroseconds],
      (align_nonpositive_frequency (-3600000000)
        { wall := 5000000000, tz := none }).2
        (by norm_num [elapsed_seconds, tdDays, tdSeconds, tdMicroseconds])⟩

/-- C6 counterexample: a frequency with strictly negative elapsed seconds on
which `align` returns an instant instead of failing - the remainder of the
float modulo is nonpositive, so the result is even later than `ts`. -/
theorem align_negative_frequency_returns_instant :
    elapsed_seconds (-3600000000) < 0 ∧
    align (-3600000000) { wall := 5000000000, tz := none } =
      .ok { wall := 7200000000, tz := none } := by
  constructor
  · norm_num [elapsed_seconds, tdDays, tdSeconds, tdMicroseconds]
  · unfold align
    rw [show dtSub { wall := 5000000000, tz := none }
        (align_epoch { wall := 5000000000, tz := none }) = .ok 5000000000 from by
      simp only [dtSub, align_epoch, Except.ok.injEq]
      omega]
    dsimp only
    rw [show elapsed_seconds 5000000000 = 5000 from by
      norm_num [elapsed_seconds, tdDays, tdSeconds, tdMicroseconds]]
    rw [show elapsed_seconds (-3600000000) = -3600 from by
      norm_num [elapsed_seconds, tdDays, tdSeconds, tdMicroseconds]]
    rw [pyMod, if_neg (by norm_num : ¬((-3600 : ℚ) = 0))]
    dsimp only
    rw [show ⌊(5000 : ℚ) / (-3600 : ℚ)⌋ = -2 from by
      apply Int.floor_eq_iff.mpr
      constructor <;> norm_num]
    rw [show (5000 : ℚ) - -3600 * ((-2 : ℤ) : ℚ) = ((-2200 : ℤ) : ℚ) from by
      norm_num]
    rw [show tdFromSeconds (((-2200 : ℤ) : ℚ)) = -2200000000 from by
      rw [tdFromSeconds_intCast]
      norm_num]
    norm_num

/-- C8: whenever the scanning loop of `parse_timedelta` reaches a nonempty
region of the input that TIMEDELTA_PATTERN cannot consume, the whole call
fails with the raised exception (the spec's duration-syntax error); no partial
duration accumulated from the earlier groups is returned, as the return value
is the error alone. -/
theorem parse_timedelta_unconsumable_region_fails (s : String)
    (tgt : List Char) (hreach : TdScanReaches s.toList tgt) (hne : tgt ≠ [])
    (hfail : timedeltaMatch tgt = none) :
    parse_timedelta s = .error .exceptionRaised :=
  parseTdGo_error_of_reach s.toList tgt hreach hne hfail
    s.toList.length 0 le_rfl

/-- C8 witness: on "5m abc" the scan consumes the group "5m " and then
reaches the unconsumable region "abc"; the call returns the error and no
partial 5-minute duration. -/
theorem parse_timedelta_unconsumable_region_fails_witness :
    TdScanReaches "5m abc".toList "abc".toList ∧
    parse_timedelta "5m abc" = .error .exceptionRaised := by
  have hreach : TdScanReaches "5m abc".toList "abc".toList :=
    TdScanReaches.step { num := ['5'], unit := ['m'], rest := "abc".toList }
      300000000 rfl resolveGroup_5m (TdScanReaches.refl _)
  exact ⟨hreach,
    parse_timedelta_unconsumable_region_fails "5m abc" "abc".toList hreach
      (by decide) rfl⟩

/-- C9: an empty input string is falsy, so `parse` returns it unchanged -
no format matching, no relative parsing, no timezone processing and no
error - even though it is neither a datetime nor an absent value. -/
theorem parse_empty_string_passthrough (env : Env) (tz : String)
    (now : Option Datetime) :
    parse env (.str "") tz now = .ok (.str "") := rfl

/-- C10: on every instance built by the constructor with an in-range minute
offset, `tzname` raises AttributeError for any datetime argument, because the
attribute it reads (`_minute_offset`) is never assigned by the constructor. -/
theorem fixedoffset_tzname_attribute_error (m : Int) (o : FixedOffsetTZ)
    (d : Datetime) (h : FixedOffsetTZ.init m = .ok o) :
    o.tzname d = .error (.attributeError
      "FixedOffsetTZ object has no attribute _minute_offset") := rfl

/-- C10 witness: the zero-offset instance. -/
theorem fixedoffset_tzname_attribute_error_witness :
    FixedOffsetTZ.init 0 = .ok { zeroTd := 0, utcoffsetTd := 0 } ∧
    FixedOffsetTZ.tzname { zeroTd := 0, utcoffsetTd := 0 }
        { wall := 0, tz := none } =
      .error (.attributeError
        "FixedOffsetTZ object has no attribute _minute_offset") :=
  ⟨rfl,
    fixedoffset_tzname_attribute_error 0 { zeroTd := 0, utcoffsetTd := 0 }
      { wall := 0, tz := none } rfl⟩

/-- C2: a duration group whose unit resolves to months never reaches the
calendar lookup: the months branch first evaluates `datetime.dateime.now()`,
a misspelled attribute access, so `parse_timedelta` raises AttributeError
instead of adding days-in-previous-month times the month count. -/
theorem parse_timedelta_months_attribute_error :
    parse_timedelta "1M" =
      .error (.attributeError "type object datetime has no attribute dateime") := rfl

/-- C3 (amended): an integer specifier outside the open interval
(-1440, 1440) does make `convert_tzinfo` fail, but not with the constructor's
range error: the `except ValueError` around the fixed-offset attempt swallows
it, the specifier falls through to the zone-database lookup, and (as numeric
strings are not zone names) the error surfaced is the same generic
unknown-timezone ValueError used for unknown names. -/
theorem convert_tzinfo_out_of_range_unknown (env : Env) (s : String) (n : Int)
    (hn : pyInt s = some n) (hrange : 1440 ≤ n ∨ n ≤ -1440)
    (hdb : env.db s = none) :
    convert_tzinfo env s = .error (.valueError ("unknown timezone " ++ s)) := by
  unfold convert_tzinfo FixedOffsetTZ.init
  rw [hn]
  dsimp only
  rw [if_pos hrange]
  dsimp only
  rw [hdb]

/-- C3 witness: the amended theorem at the spec's own example "1500". -/
theorem convert_tzinfo_out_of_range_unknown_witness :
    pyInt "1500" = some 1500 ∧ sampleEnv.db "1500" = none ∧
    convert_tzinfo sampleEnv "1500" =
      .error (.valueError ("unknown timezone " ++ "1500")) :=
  ⟨by decide, rfl,
    convert_tzinfo_out_of_range_unknown sampleEnv "1500" 1500 (by decide)
      (Or.inl (by decide)) rfl⟩

/-- C3 counterexample: on "1500" the resolver's error is the generic
unknown-timezone ValueError, which is a different error value than the
InvalidOffset range error raised (and swallowed) inside the constructor. -/
theorem convert_tzinfo_1500_not_invalid_offset :
    convert_tzinfo sampleEnv "1500" =
      .error (.valueError "unknown timezone 1500") ∧
    (.error (.valueError "unknown timezone 1500") : Except PyError TzObject) ≠
      .error (.valueError "minute offset must be in [-1439, 1439]") := by
  refine ⟨rfl, ?_⟩
  intro h
  have h2 : PyError.valueError "unknown timezone 1500"
      = PyError.valueError "minute offset must be in [-1439, 1439]" := by
    injection h
  have h3 : ("unknown timezone 1500" : String)
      = "minute offset must be in [-1439, 1439]" := by
    injection h2
  exact absurd h3 (by decide)

theorem pytz_timezone_ok (env : Env) (name : String) (z : PytzZone)
    (h : pytz_timezone env name = .ok z) : env.db name = some z := by
  unfold pytz_timezone at h
  split at h
  · rename_i z' hz'
    injection h with h
    rw [hz', h]
  · simp at h

theorem pytzNormalize_aware (z : PytzZone) (dt : Datetime) (t : Tzinfo)
    (ht : dt.tz = some t) :
    pytzNormalize z dt = .ok
      { wall := (dt.wall - t.utcoffsetUs) + z.fromutcOff (dt.wall - t.utcoffsetUs),
        tz := some (.pytz z (z.fromutcOff (dt.wall - t.utcoffsetUs))) } := by
  unfold pytzNormalize
  rw [ht]

theorem localize_normalize_eval (env : Env) (dt : Datetime) (tz : String)
    (z : PytzZone) (t : Tzinfo) (hdb : env.db tz = some z)
    (ht : dt.tz = some t) :
    localize env dt true tz = .ok
      { wall := (dt.wall - t.utcoffsetUs) + z.fromutcOff (dt.wall - t.utcoffsetUs),
        tz := some (.pytz z (z.fromutcOff (dt.wall - t.utcoffsetUs))) } := by
  unfold localize pytz_timezone
  rw [hdb]
  dsimp only
  exact pytzNormalize_aware z dt t ht

theorem tz_finalize_aware_ny (env : Env) (dt0 : Datetime) (z : PytzZone)
    (t : Tzinfo) (hdb : env.db "America/New_York" = some z)
    (ht : dt0.tz = some t) :
    tz_finalize env dt0 "America/New_York" = .ok
      { wall := (dt0.wall - t.utcoffsetUs)
          + z.fromutcOff (dt0.wall - t.utcoffsetUs),
        tz := some (.pytz z (z.fromutcOff (dt0.wall - t.utcoffsetUs))) } := by
  unfold tz_finalize
  rw [show convert_tzinfo env "America/New_York" = .ok (.zone z) from by
    unfold convert_tzinfo
    rw [show pyInt "America/New_York" = none from rfl]
    dsimp only
    rw [hdb]]
  dsimp only
  rw [ht]
  dsimp only
  rw [localize_normalize_eval env dt0 "America/New_York" z t hdb ht]
  dsimp only
  rw [show pytz_timezone env "America/New_York" = .ok z from by
    unfold pytz_timezone
    rw [hdb]]
  dsimp only
  exact pytzNormalize_aware z dt0 t ht

theorem tz_finalize_shape (env : Env) (dt0 : Datetime) (tz : String)
    (d : Datetime) (h : tz_finalize env dt0 tz = .ok d) :
    ∃ z u, env.db "America/New_York" = some z ∧
      d = { wall := u + z.fromutcOff u,
            tz := some (.pytz z (z.fromutcOff u)) } := by
  unfold tz_finalize at h
  dsimp only at h
  split at h
  · simp at h
  · simp at h
  · rename_i dt1 hstep
    split at h
    · simp at h
    · rename_i zNY hz
      have hdb : env.db "America/New_York" = some zNY := pytz_timezone_ok env _ zNY hz
      unfold pytzNormalize at h
      split at h
      · simp at h
      · rename_i t ht
        injection h with h
        exact ⟨zNY, dt1.wall - t.utcoffsetUs, hdb, h.symm⟩

theorem parse_2h_eval (env : Env) (T : Datetime) (t : Tzinfo) (zNY : PytzZone)
    (hdb : env.db "America/New_York" = some zNY) (hT : T.tz = some t)
    (habs : ∀ f ∈ DATETIME_FORMATS, env.strptime f "2h" = none) :
    parse env (.str "2h") "America/New_York" (some T) =
      .ok (.dt { wall := (T.wall - 7200000000 - t.utcoffsetUs)
                    + zNY.fromutcOff (T.wall - 7200000000 - t.utcoffsetUs),
                 tz := some (.pytz zNY
                    (zNY.fromutcOff (T.wall - 7200000000 - t.utcoffsetUs))) }) := by
  have had : as_datetime env "2h" = none := by
    unfold as_datetime parse_datetime
    rw [List.findSome?_eq_none_iff.mpr habs]
  have hat : as_timedelta env "2h" (some T)
      = some { wall := T.wall - 7200000000, tz := T.tz } := by
    unfold as_timedelta
    rw [parse_timedelta_2h]
  simp only [parse, had, hat]
  rw [tz_finalize_aware_ny env { wall := T.wall - 7200000000, tz := T.tz }
    zNY t hdb hT]
  rw [if_neg (by decide : ¬("2h" = "")),
    if_neg (by decide : ¬("America/New_York" = ""))]

/-- C1: whenever `parse` succeeds on a nonempty input string with a nonempty
target TimezoneSpec, the returned value is a timezone-aware datetime pinned to
the canonical reference zone America/New_York at the offset the zone selects
for that absolute instant, regardless of which target zone was supplied (the
target zone is universally quantified here; it only influences how a naive
string was interpreted earlier in the pipeline). -/
theorem parse_result_in_canonical_zone (env : Env) (s tz : String)
    (now : Option Datetime) (r : PyTimeVal) (hs : s ≠ "") (htz : tz ≠ "")
    (h : parse env (.str s) tz now = .ok r) :
    ∃ d z u, env.db "America/New_York" = some z ∧ r = .dt d ∧
      d.wall = u + z.fromutcOff u ∧
      d.tz = some (.pytz z (z.fromutcOff u)) := by
  simp only [parse] at h
  rw [if_neg hs] at h
  split at h
  · simp at h
  · rename_i dt0 hdt0
    rw [if_neg htz] at h
    split at h
    · simp at h
    · rename_i d htzf
      injection h with h
      obtain ⟨z, u, hdb, hd⟩ := tz_finalize_shape env dt0 tz d htzf
      refine ⟨d, z, u, hdb, h.symm, ?_, ?_⟩
      · rw [hd]
      · rw [hd]

/-- C1 witness: the general theorem applied to the concrete environment, the
relative input "2h", the canonical target zone, and an aware reference
instant. -/
theorem parse_result_in_canonical_zone_witness :
    ("2h" : String) ≠ "" ∧ ("America/New_York" : String) ≠ "" ∧
    ∃ d z u, sampleEnv.db "America/New_York" = some z ∧
      (PyTimeVal.dt { wall := 1685628000000000, tz := some (.pytz nyZone (-18000000000)) } : PyTimeVal) = .dt d ∧
      d.wall = u + z.fromutcOff u ∧
      d.tz = some (.pytz z (z.fromutcOff u)) := by
  refine ⟨by decide, by decide, ?_⟩
  exact parse_result_in_canonical_zone sampleEnv "2h" "America/New_York"
    (some { wall := 1685635200000000, tz := some (.pytz nyZone (-18000000000)) })
    (.dt { wall := 1685628000000000, tz := some (.pytz nyZone (-18000000000)) })
    (by decide) (by decide)
    (parse_2h_eval sampleEnv
      { wall := 1685635200000000, tz := some (.pytz nyZone (-18000000000)) }
      (.pytz nyZone (-18000000000)) nyZone rfl rfl (fun f hf => rfl))

/-- C7: with an aware reference instant supplied as `now`, `parse` on "2h"
succeeds via the relative branch and yields the instant `now` minus two
hours, reported in the canonical reference zone (the absolute instant of the
result is `dtAbs now - 7200000000` microseconds and its tzinfo is the
America/New_York zone pinned at that instant's offset). -/
theorem parse_relative_2h_subtracts (env : Env) (T : Datetime) (t : Tzinfo)
    (zNY : PytzZone) (hdb : env.db "America/New_York" = some zNY)
    (hT : T.tz = some t)
    (habs : ∀ f ∈ DATETIME_FORMATS, env.strptime f "2h" = none) :
    ∃ d, parse env (.str "2h") "America/New_York" (some T) = .ok (.dt d) ∧
      dtAbs d = dtAbs T - 7200000000 ∧
      ∃ u, u = dtAbs T - 7200000000 ∧
        d.tz = some (.pytz zNY (zNY.fromutcOff u)) := by
  refine ⟨_, parse_2h_eval env T t zNY hdb hT habs, ?_, ?_⟩
  · simp only [dtAbs, Tzinfo.utcoffsetUs, hT]
    ring
  · refine ⟨T.wall - 7200000000 - t.utcoffsetUs, ?_, rfl⟩
    simp only [dtAbs, hT]
    ring

/-- C7 witness: the general theorem at the concrete environment and a fixed
aware instant. -/
theorem parse_relative_2h_subtracts_witness :
    sampleEnv.db "America/New_York" = some nyZone ∧
    ∃ d, parse sampleEnv (.str "2h") "America/New_York"
        (some { wall := 1685635200000000, tz := some (.pytz nyZone (-18000000000)) }) = .ok (.dt d) ∧
      dtAbs d = dtAbs { wall := 1685635200000000, tz := some (.pytz nyZone (-18000000000)) } - 7200000000 ∧
      ∃ u, u = dtAbs { wall := 1685635200000000, tz := some (.pytz nyZone (-18000000000)) } - 7200000000 ∧
        d.tz = some (.pytz nyZone (nyZone.fromutcOff u)) :=
  ⟨rfl, parse_relative_2h_subtracts sampleEnv
    { wall := 1685635200000000, tz := some (.pytz nyZone (-18000000000)) }
    (.pytz nyZone (-18000000000)) nyZone rfl rfl (fun f hf => rfl)⟩

/-- C4: on the relative branch (whose result is already aware) with a valid
numeric TimezoneSpec such as "0", `parse` does not normalize into the target
zone: the resolver's fixed-offset zone is resolved and then ignored, and the
aware-branch call to `localize` re-resolves the spec through `pytz.timezone`,
which fails on a numeric string, so the whole call raises the
unknown-timezone ValueError instead of succeeding. -/
theorem parse_numeric_tz_relative_raises (env : Env) (T : Datetime)
    (t : Tzinfo) (hT : T.tz = some t) (hdb0 : env.db "0" = none)
    (habs : ∀ f ∈ DATETIME_FORMATS, env.strptime f "2h" = none) :
    parse env (.str "2h") "0" (some T) =
      .error (.valueError ("unknown timezone " ++ "0")) := by
  have had : as_datetime env "2h" = none := by
    unfold as_datetime parse_datetime
    rw [List.findSome?_eq_none_iff.mpr habs]
  have hat : as_timedelta env "2h" (some T)
      = some { wall := T.wall - 7200000000, tz := T.tz } := by
    unfold as_timedelta
    rw [parse_timedelta_2h]
  rw [hT] at hat
  have htzf : tz_finalize env { wall := T.wall - 7200000000, tz := some t } "0"
      = .error (.valueError ("unknown timezone " ++ "0")) := by
    unfold tz_finalize
    rw [show convert_tzinfo env "0"
        = .ok (.fixedTz { zeroTd := 0, utcoffsetTd := 0 }) from by
      unfold convert_tzinfo FixedOffsetTZ.init
      rw [show pyInt "0" = some 0 from rfl]
      dsimp only
      rw [if_neg (by decide : ¬((1440 : ℤ) ≤ 0 ∨ (0 : ℤ) ≤ -1440))]
      norm_num]
    dsimp only
    rw [show localize env { wall := T.wall - 7200000000, tz := some t } true "0"
        = .error (.unknownTimeZoneError "0") from by
      unfold localize pytz_timezone
      rw [hdb0]]
  simp only [parse, had, hat, htzf]
  rw [if_neg (by decide : ¬("2h" = "")), if_neg (by decide : ¬("0" = ""))]

/-- C4 witness: the failing input evaluated at the concrete environment. -/
theorem parse_numeric_tz_relative_raises_witness :
    parse sampleEnv (.str "2h") "0"
        (some { wall := 1685635200000000,
                tz := some (.pytz nyZone (-18000000000)) })
      = .error (.valueError ("unknown timezone " ++ "0")) :=
  parse_numeric_tz_relative_raises sampleEnv
    { wall := 1685635200000000, tz := some (.pytz nyZone (-18000000000)) }
    (.pytz nyZone (-18000000000)) rfl rfl (fun f hf => rfl)

end Utensils
